import Mathlib

/-!
Verification of the Charli3 swap-pycardano demo against its natural-language
specification.  The repository source under scrutiny is
`swap_demo_contract/main.py` (CLI wiring, configuration loading, chain-context
construction and command dispatch).  The SwapEngine quoting logic that the
spec describes (`SwapContract.swap_A` / `swap_B` / `add_liquidity` in
`swap_demo_contract/swap.py`) is not present in the available source tree, so
it is modelled from the spec's own §4.3 contract and the claims are settled
against that model.  All amounts are integers at the asset's smallest unit,
timestamps are integers, and the oracle price is a rational (the on-chain feed
is a fixed-point rational, scaled by 10^6 in the display code of `main.py`).
-/

namespace SwapDemo

/-- Truncation toward zero of a rational to an integer: floor for non-negative
values, ceiling for negative ones ("truncated toward zero to the asset's
smallest unit" in spec §4.3). -/
def truncTowardZero (q : ℚ) : ℤ :=
  if q < 0 then -⌊-q⌋ else ⌊q⌋

/-- Modelled from the spec: `OracleRecord` of §3 — the oracle quoting snapshot
(`price` is the exchange rate, asset B per asset A; `generatedAt` and
`expiresAt` are timestamps).  The record type lives in the repository's
`swap.py`, which is not under the available source tree. -/
structure OracleRecord where
  price : ℚ
  generatedAt : ℤ
  expiresAt : ℤ
  deriving DecidableEq

/-- Modelled from the spec: `ReserveRecord` of §3 — the swap contract's
reserve snapshot: two asset balances plus the owning contract address.  The
record type lives in the repository's `swap.py`, not under the available
source tree. -/
structure ReserveRecord where
  reserveA : ℤ
  reserveB : ℤ
  owner : String
  deriving DecidableEq

/-- Trade direction (spec §3, `TradeRequest`). -/
inductive Direction where
  | giveAgetB
  | giveBgetA
  deriving DecidableEq

/-- Modelled from the spec: `TradeRequest` of §3 — user intent consumed by the
SwapEngine. -/
structure TradeRequest where
  direction : Direction
  amountIn : ℤ
  deriving DecidableEq

/-- Modelled from the spec: `LiquidityChangeRequest` of §3. -/
structure LiquidityChangeRequest where
  deltaA : ℤ
  deltaB : ℤ
  deriving DecidableEq

/-- The SwapEngine error taxonomy used by `quoteTrade` and
`applyLiquidityChange` (spec §7). -/
inductive SwapError where
  | OracleExpired
  | OracleNotYetActive
  | InsufficientReserve
  | InvalidAmount
  deriving DecidableEq

/-- Modelled from the spec: `quoteTrade` of §4.3 — the SwapEngine quoting
function (`SwapContract.swap_A` / `swap_B` in the repository's `swap.py` is
not under the available source tree).  Guards follow the spec's order: the
oracle-expiry check comes first (§4.3 lists it first and §8 states it as an
unconditional universal), then the not-yet-active check, then the amount-sign
check, and the reserve-sufficiency check is made on the computed result
before any transition is built.  `amountOut` is the price-converted input,
truncated toward zero to the smallest unit. -/
def quoteTrade (req : TradeRequest) (reserve : ReserveRecord)
    (oracle : OracleRecord) (now : ℤ) : Except SwapError (ReserveRecord × ℤ) :=
  if oracle.expiresAt ≤ now then .error .OracleExpired
  else if now < oracle.generatedAt then .error .OracleNotYetActive
  else if req.amountIn ≤ 0 then .error .InvalidAmount
  else
    match req.direction with
    | .giveAgetB =>
        let amountOut := truncTowardZero ((req.amountIn : ℚ) * oracle.price)
        if reserve.reserveB - amountOut < 0 then .error .InsufficientReserve
        else .ok (⟨reserve.reserveA + req.amountIn,
                   reserve.reserveB - amountOut, reserve.owner⟩, amountOut)
    | .giveBgetA =>
        let amountOut := truncTowardZero ((req.amountIn : ℚ) / oracle.price)
        if reserve.reserveA - amountOut < 0 then .error .InsufficientReserve
        else .ok (⟨reserve.reserveA - amountOut,
                   reserve.reserveB + req.amountIn, reserve.owner⟩, amountOut)

/-- Modelled from the spec: `applyLiquidityChange` of §4.3 — only liquidity
adds are supported (`SwapContract.add_liquidity` in the repository's
`swap.py` is not under the available source tree); a negative delta on either
asset is rejected with `InvalidAmount`, otherwise both deltas are applied
componentwise and no other field changes. -/
def applyLiquidityChange (req : LiquidityChangeRequest)
    (reserve : ReserveRecord) : Except SwapError ReserveRecord :=
  if req.deltaA < 0 ∨ req.deltaB < 0 then .error .InvalidAmount
  else .ok ⟨reserve.reserveA + req.deltaA, reserve.reserveB + req.deltaB,
            reserve.owner⟩

instance {ε α : Type} [DecidableEq ε] [DecidableEq α] :
    DecidableEq (Except ε α) := fun a b =>
  match a, b with
  | .ok x, .ok y =>
      if h : x = y then .isTrue (by rw [h]) else
        .isFalse (by intro hc; exact h (Except.ok.injEq .. ▸ hc))
  | .error x, .error y =>
      if h : x = y then .isTrue (by rw [h]) else
        .isFalse (by intro hc; exact h (Except.error.injEq .. ▸ hc))
  | .ok _, .error _ => .isFalse (by intro hc; exact Except.noConfusion hc)
  | .error _, .ok _ => .isFalse (by intro hc; exact Except.noConfusion hc)

/-!
## Embedding of `swap_demo_contract/main.py`

The CLI module: configuration loading (`load_config`,
`load_contracts_addresses`, lines 26–42), chain-context construction
(`validate_config`, `context`, lines 45–94), module-level initialisation
(line 97 onward), the argparse command model (`create_parser`, lines
156–276) and the dispatch function (`display`, lines 280–367).
-/

/-- Python values as they occur in the parsed-argument namespace of
`main.py`: strings, ints, booleans, `None`, and the two-int list produced by
`--add-liquidity` (`nargs=2`). -/
inductive PyVal where
  | str : String → PyVal
  | int : ℤ → PyVal
  | bool : Bool → PyVal
  | pyNone : PyVal
  | intPair : ℤ → ℤ → PyVal
  deriving DecidableEq

/-- Python truthiness for the values above (`if args.liquidity:` etc.):
non-empty strings, non-zero ints and two-element lists are truthy; `None`
and `False` are falsy. -/
def truthy : PyVal → Bool
  | .str s => s ≠ ""
  | .int n => n ≠ 0
  | .bool b => b
  | .pyNone => false
  | .intPair _ _ => true

/-- An `argparse.Namespace`: a finite map from attribute names to values. -/
abbrev PyNamespace : Type := List (String × PyVal)

/-- Errors raised by the embedded Python code: `sys.exit(code)` after
printing `msg`, `ValueError(msg)`, `AttributeError` on a missing namespace
attribute, and `NameError` on an undefined module-level name. -/
inductive ProgError where
  | exit (code : ℤ) (msg : String)
  | valueError (msg : String)
  | attributeError (name : String)
  | nameError (name : String)
  deriving DecidableEq

/-- `getattr` on a parsed-argument namespace: a missing attribute raises
`AttributeError`, as in `args.subparser_trade_name` at main.py line 281. -/
def getattrE (ns : PyNamespace) (name : String) : Except ProgError PyVal :=
  match ns.lookup name with
  | some v => .ok v
  | none => .error (.attributeError name)

/-- The module-level name `swap_script`: its binding
(`swap_script = context._get_script(...)`, main.py line 100) is commented
out in the source, so the name is undefined at module level. -/
def swap_script : Option PyVal := none

/-- Reading a module-level global: an unbound name raises `NameError`, as
evaluating `swap_script` inside `display` would. -/
def lookupGlobal (name : String) (v : Option PyVal) : Except ProgError PyVal :=
  match v with
  | some x => .ok x
  | none => .error (.nameError name)

/-! ### The argparse command model (`create_parser`, main.py lines 156–276) -/

/-- The two tradable assets of the `trade` subcommand. -/
inductive TradeAsset where
  | tADA
  | tUSDT
  deriving DecidableEq

/-- The command namespaces `create_parser` can produce: `trade` with an
optional asset sub-subcommand and optional `--amount`, `user`,
`swap-contract` and `oracle-contract` with their flags.  `Option` encodes an
omitted optional argument (argparse then stores the declared default). -/
inductive Command where
  | trade : Option (TradeAsset × Option ℤ) → Command
  | user : Bool → Bool → Command
  | swapContract : Bool → Bool → Option (ℤ × ℤ) → Bool → Command
  | oracleContract : Bool → Bool → Command

/-- Default of `--amount` in both trade sub-subcommands
(`default=0`, main.py lines 186–203). -/
def tradeAmountDefault : ℤ := 0

/-- The namespace argparse builds for each command: the top-level subparsers
action stores the chosen subcommand under `subparser` (its `dest`, line 168)
and the trade-level subparsers action stores the asset under
`subparser_trade_subparser` (its `dest`, line 180); flags are stored under
their own dests (`amount`, `liquidity`, `address`, `addliquidity`,
`soracle`, `feed`). -/
def parseArgs : Command → PyNamespace
  | .trade none =>
      [("subparser", .str "trade"), ("subparser_trade_subparser", .pyNone)]
  | .trade (some (a, amt)) =>
      [("subparser", .str "trade"),
       ("subparser_trade_subparser",
        .str (match a with | .tADA => "tADA" | .tUSDT => "tUSDT")),
       ("amount", .int (amt.getD tradeAmountDefault))]
  | .user l a =>
      [("subparser", .str "user"), ("liquidity", .bool l),
       ("address", .bool a)]
  | .swapContract l a al s =>
      [("subparser", .str "swap-contract"), ("liquidity", .bool l),
       ("address", .bool a),
       ("addliquidity",
        match al with | some (x, y) => .intPair x y | none => .pyNone),
       ("soracle", .bool s)]
  | .oracleContract f a =>
      [("subparser", .str "oracle-contract"), ("feed", .bool f),
       ("address", .bool a)]

/-! ### The dispatch function (`display`, main.py lines 280–367) -/

/-- The action a `display` branch would perform if it completed: the calls
into `SwapContract` / `Mint` or the `print` it ends in. -/
inductive Effect where
  | swapA : PyVal → Effect
  | swapB : PyVal → Effect
  | printUserLiquidity
  | printUserAddress
  | printSwapLiquidity
  | printSwapAddress
  | addLiquidity : PyVal → Effect
  | mintNFT
  | printFeed
  | printOracleAddress
  deriving DecidableEq

/-- The tail of `display`'s `elif` chain from the `user` branches on (main.py
lines 305–366), evaluated once the value `m` of
`args.subparser_main_name` is at hand; each branch tests `m` against the
subcommand string and then the truthiness of its flag, falling through to
the next branch on failure, ending in an implicit `None`. -/
def displayTail (args : PyNamespace) (m : PyVal) :
    Except ProgError (Option Effect) := do
  if m = .str "user" then
    let l ← getattrE args "liquidity"
    if truthy l then pure (some .printUserLiquidity)
    else
      let a ← getattrE args "address"
      if truthy a then pure (some .printUserAddress) else pure none
  else if m = .str "swap-contract" then
    let l ← getattrE args "liquidity"
    if truthy l then pure (some .printSwapLiquidity)
    else
      let a ← getattrE args "address"
      if truthy a then pure (some .printSwapAddress)
      else
        let al ← getattrE args "addliquidity"
        if truthy al then
          let _ ← lookupGlobal "swap_script" swap_script
          pure (some (.addLiquidity al))
        else
          let s ← getattrE args "soracle"
          if truthy s then pure (some .mintNFT) else pure none
  else if m = .str "oracle-contract" then
    let f ← getattrE args "feed"
    if truthy f then pure (some .printFeed)
    else
      let a ← getattrE args "address"
      if truthy a then pure (some .printOracleAddress) else pure none
  else pure none

/-- The first `elif` of `display` (main.py line 293):
`args.subparser_main_name == "trade" and args.subparser_trade_name ==
"tUSDT"`.  The namespace attribute `subparser_main_name` is read here on
every path; the `tUSDT` branch additionally evaluates the module-level name
`swap_script` before calling `SwapContract.swap_A`. -/
def displayElifChain (args : PyNamespace) : Except ProgError (Option Effect) := do
  let m ← getattrE args "subparser_main_name"
  if m = .str "trade" then
    let t ← getattrE args "subparser_trade_name"
    if t = .str "tUSDT" then
      let amt ← getattrE args "amount"
      let _ ← lookupGlobal "swap_script" swap_script
      pure (some (.swapA amt))
    else displayTail args m
  else displayTail args m

/-- `display` (main.py lines 280–367).  The first condition
(line 281) reads `args.subparser` and, when it equals `"trade"`, reads
`args.subparser_trade_name` (short-circuit `and`); the `tADA` branch
evaluates the module-level name `swap_script` before calling
`SwapContract.swap_B`; every other path proceeds to the `elif` chain, whose
conditions read `args.subparser_main_name`. -/
def display (args : PyNamespace) : Except ProgError (Option Effect) := do
  let sub ← getattrE args "subparser"
  if sub = .str "trade" then
    let t ← getattrE args "subparser_trade_name"
    if t = .str "tADA" then
      let amt ← getattrE args "amount"
      let _ ← lookupGlobal "swap_script" swap_script
      pure (some (.swapB amt))
    else displayElifChain args
  else displayElifChain args

/-! ### Configuration loading (`load_config` / `load_contracts_addresses`,
main.py lines 26–42) and chain-context construction (`validate_config` /
`context`, lines 45–94) -/

/-- The parsed `config.yaml`: top-level scalar entries (the two contract
addresses) and per-service sections of key/value entries (the YAML nesting
is modelled as two association lists). -/
structure ConfigYaml where
  toplevel : List (String × String)
  sections : List (String × List (String × String))
  deriving DecidableEq

/-- `load_config` (main.py lines 35–42): opening `config.yaml`; a missing
file (`FileNotFoundError`, modelled by `none`) prints
"Configuration file not found." and calls `sys.exit(1)`. -/
def load_config (file : Option ConfigYaml) : Except ProgError ConfigYaml :=
  match file with
  | some c => .ok c
  | none => .error (.exit 1 "Configuration file not found.")

/-- `load_contracts_addresses` (main.py lines 26–32): loads the
configuration and reads the two contract addresses
(`dict.get` returns `None`, here `Option.none`, when a key is absent). -/
def load_contracts_addresses (file : Option ConfigYaml) :
    Except ProgError (Option String × Option String) := do
  let configyaml ← load_config file
  pure (configyaml.toplevel.lookup "oracle_contract_address",
        configyaml.toplevel.lookup "swap_contract_address")

/-- `validate_config` (main.py lines 45–50): raises `ValueError` unless the
service section exists and carries every required key. -/
def validate_config (config : ConfigYaml) (service : String)
    (required_keys : List String) : Except ProgError Unit :=
  match config.sections.lookup service with
  | none =>
      .error (.valueError
        ("Context for " ++ service ++ " not found or is incomplete."))
  | some sec =>
      if required_keys.all (fun k => (sec.lookup k).isSome) then .ok ()
      else
        .error (.valueError
          ("Context for " ++ service ++ " not found or is incomplete."))

/-- `pycardano.Network`. -/
inductive Network where
  | TESTNET
  | MAINNET
  deriving DecidableEq

/-- `BlockFrostChainContext(project_id=…, network=…, base_url=None)`
(main.py lines 70–74). -/
structure BlockFrostChainContext where
  project_id : String
  network : Network
  deriving DecidableEq

/-- `ogmios.OgmiosChainContext(host=…, port=…, network=…)`
(main.py lines 84–86). -/
structure OgmiosChainContext where
  host : String
  port : ℤ
  network : Network
  deriving DecidableEq

/-- `KupoContext(kupo_url)` (main.py line 88). -/
structure KupoContext where
  url : String
  deriving DecidableEq

/-- `ChainQuery(blockfrost_context=…, ogmios_context=…, kupo_context=…)`
(main.py lines 90–94). -/
structure ChainQuery where
  blockfrost_context : Option BlockFrostChainContext
  ogmios_context : Option OgmiosChainContext
  kupo_context : Option KupoContext
  deriving DecidableEq

/-- The argument attributes `context` reads.  `service` is `args.service`
(line 66).  The `environment` field records the network selection the
commented-out lines 61–64 would have read; it is carried here only so that
independence from it can be stated — the live code never reads it. -/
structure CtxArgs where
  service : String
  environment : String
  deriving DecidableEq

/-- `int(port)` (main.py line 85): Python's `int` on a decimal string,
`ValueError` on anything else. -/
def pyInt (s : String) : Except ProgError ℤ :=
  match s.toInt? with
  | some n => .ok n
  | none =>
      .error (.valueError ("invalid literal for int() with base 10: " ++ s))

/-- `context` (main.py lines 53–94): loads the configuration, fixes
`network = Network.TESTNET` (the `args.environment` branch, lines 61–64, is
commented out), then builds at most one of the three contexts according to
`args.service`; any other service value falls through to a `ChainQuery`
whose three contexts are all `None`.  The ogmios branch splits the
websocket URL on `"ws://"` then on `":"` — tuple unpacking of a list whose
length is not exactly two raises `ValueError`. -/
def context (args : CtxArgs) (file : Option ConfigYaml) :
    Except ProgError ChainQuery :=
  match load_config file with
  | .error e => .error e
  | .ok configyaml =>
    if args.service = "blockfrost" then
      match validate_config configyaml args.service ["project_id"] with
      | .error e => .error e
      | .ok _ =>
          .ok ⟨some ⟨((((configyaml.sections.lookup args.service).getD
                  []).lookup "project_id").getD ""), Network.TESTNET⟩,
               none, none⟩
    else if args.service = "ogmios" then
      match validate_config configyaml args.service
          ["kupo_url", "ws_url"] with
      | .error e => .error e
      | .ok _ =>
          match (((((configyaml.sections.lookup "ogmios").getD
              []).lookup "ws_url").getD "")).splitOn "ws://" with
          | [_, ws_string] =>
              match ws_string.splitOn ":" with
              | [ws_url, port_str] =>
                  match pyInt port_str with
                  | .error e => .error e
                  | .ok port =>
                      .ok ⟨none, some ⟨ws_url, port, Network.TESTNET⟩,
                           some ⟨((((configyaml.sections.lookup
                               "ogmios").getD []).lookup
                               "kupo_url").getD "")⟩⟩
              | _ => .error (.valueError "values to unpack")
          | _ => .error (.valueError "values to unpack")
    else
      .ok ⟨none, none, none⟩

/-! ### Module initialisation and `main` (main.py lines 97–375) -/

/-- The whole program run, as Python executes it: importing the module first
evaluates `load_contracts_addresses()` at line 97 (so a missing
`config.yaml` terminates the process there), and only then does `main`
(lines 369–374) build the parser, parse the command line, construct the
chain context and dispatch through `display`. -/
def pythonMain (file : Option ConfigYaml) (cmd : Command) (ctxArgs : CtxArgs) :
    Except ProgError (Option Effect) := do
  let _addrs ← load_contracts_addresses file
  let args := parseArgs cmd
  let _ctx ← context ctxArgs file
  display args

/-!
## Helper lemmas
-/

theorem truncTowardZero_of_nonneg {q : ℚ} (h : 0 ≤ q) :
    truncTowardZero q = ⌊q⌋ := by
  rw [truncTowardZero, if_neg (not_lt.mpr h)]

theorem quoteTrade_ok_giveAgetB (amt : ℤ) (res : ReserveRecord)
    (o : OracleRecord) (now : ℤ) (hexp : now < o.expiresAt)
    (hgen : o.generatedAt ≤ now) (hamt : 0 < amt)
    (hsuff : truncTowardZero ((amt : ℚ) * o.price) ≤ res.reserveB) :
    quoteTrade ⟨.giveAgetB, amt⟩ res o now =
      .ok (⟨res.reserveA + amt,
            res.reserveB - truncTowardZero ((amt : ℚ) * o.price), res.owner⟩,
           truncTowardZero ((amt : ℚ) * o.price)) := by
  rw [quoteTrade]
  dsimp only
  rw [if_neg (by omega), if_neg (by omega), if_neg (by omega),
      if_neg (by omega)]

theorem quoteTrade_ok_giveBgetA (amt : ℤ) (res : ReserveRecord)
    (o : OracleRecord) (now : ℤ) (hexp : now < o.expiresAt)
    (hgen : o.generatedAt ≤ now) (hamt : 0 < amt)
    (hsuff : truncTowardZero ((amt : ℚ) / o.price) ≤ res.reserveA) :
    quoteTrade ⟨.giveBgetA, amt⟩ res o now =
      .ok (⟨res.reserveA - truncTowardZero ((amt : ℚ) / o.price),
            res.reserveB + amt, res.owner⟩,
           truncTowardZero ((amt : ℚ) / o.price)) := by
  rw [quoteTrade]
  dsimp only
  rw [if_neg (by omega), if_neg (by omega), if_neg (by omega),
      if_neg (by omega)]

theorem quoteTrade_error_expired (req : TradeRequest) (res : ReserveRecord)
    (o : OracleRecord) (now : ℤ) (hexp : o.expiresAt ≤ now) :
    quoteTrade req res o now = .error .OracleExpired := by
  rw [quoteTrade, if_pos hexp]

theorem quoteTrade_error_notYetActive (req : TradeRequest)
    (res : ReserveRecord) (o : OracleRecord) (now : ℤ)
    (hexp : now < o.expiresAt) (hgen : now < o.generatedAt) :
    quoteTrade req res o now = .error .OracleNotYetActive := by
  rw [quoteTrade, if_neg (by omega), if_pos hgen]

theorem quoteTrade_error_invalidAmount (req : TradeRequest)
    (res : ReserveRecord) (o : OracleRecord) (now : ℤ)
    (hexp : now < o.expiresAt) (hgen : o.generatedAt ≤ now)
    (hamt : req.amountIn ≤ 0) :
    quoteTrade req res o now = .error .InvalidAmount := by
  rw [quoteTrade, if_neg (by omega), if_neg (by omega), if_pos hamt]

/-- Inversion on a successful quote: the guard outcomes and the exact shape
of the returned reserve and amount. -/
theorem quoteTrade_ok_elim {req : TradeRequest} {res : ReserveRecord}
    {o : OracleRecord} {now : ℤ} {r2 : ReserveRecord} {out : ℤ}
    (h : quoteTrade req res o now = .ok (r2, out)) :
    now < o.expiresAt ∧ o.generatedAt ≤ now ∧ 0 < req.amountIn ∧
    ((req.direction = .giveAgetB ∧
        out = truncTowardZero ((req.amountIn : ℚ) * o.price) ∧
        out ≤ res.reserveB ∧
        r2 = ⟨res.reserveA + req.amountIn, res.reserveB - out, res.owner⟩) ∨
     (req.direction = .giveBgetA ∧
        out = truncTowardZero ((req.amountIn : ℚ) / o.price) ∧
        out ≤ res.reserveA ∧
        r2 = ⟨res.reserveA - out, res.reserveB + req.amountIn, res.owner⟩)) := by
  rw [quoteTrade] at h
  split_ifs at h with h1 h2 h3
  refine ⟨by omega, by omega, by omega, ?_⟩
  obtain ⟨dir, amt⟩ := req
  cases dir with
  | giveAgetB =>
      dsimp only at h
      split_ifs at h with h4
      simp only [Except.ok.injEq, Prod.mk.injEq] at h
      obtain ⟨hr, ho⟩ := h
      subst ho
      subst hr
      left
      exact ⟨rfl, rfl, by omega, rfl⟩
  | giveBgetA =>
      dsimp only at h
      split_ifs at h with h4
      simp only [Except.ok.injEq, Prod.mk.injEq] at h
      obtain ⟨hr, ho⟩ := h
      subst ho
      subst hr
      right
      exact ⟨rfl, rfl, by omega, rfl⟩

theorem abs_sub_floor_lt_one (q : ℚ) : |q - (⌊q⌋ : ℚ)| < 1 := by
  rw [Int.self_sub_floor, abs_of_nonneg (Int.fract_nonneg q)]
  exact Int.fract_lt_one q

/-!
## Claim theorems
-/

/-- Claim C1 (amended): with a fresh oracle, positive input and a computed
`amountOut` that does not exceed the paid-out reserve, `quoteTrade` returns
`amountOut = amountIn × price` truncated toward zero for giveA→getB
(resp. `amountIn ÷ price` for giveB→getA) and the componentwise-updated
reserve.  At the spec's example input — reserve `{A:1_000_000, B:500}` in
smallest units, price `0.6`, `amountIn = 100_000` — the quote fails with
`InsufficientReserve` (see the counterexample); with a sufficient B-reserve
of `500_000_000` it returns `amountOut = 60_000`. -/
theorem C1_quoteTrade_formula :
    (∀ (amt : ℤ) (res : ReserveRecord) (o : OracleRecord) (now : ℤ),
        now < o.expiresAt → o.generatedAt ≤ now → 0 < amt →
        truncTowardZero ((amt : ℚ) * o.price) ≤ res.reserveB →
        quoteTrade ⟨.giveAgetB, amt⟩ res o now =
          .ok (⟨res.reserveA + amt,
                res.reserveB - truncTowardZero ((amt : ℚ) * o.price),
                res.owner⟩,
               truncTowardZero ((amt : ℚ) * o.price))) ∧
    (∀ (amt : ℤ) (res : ReserveRecord) (o : OracleRecord) (now : ℤ),
        now < o.expiresAt → o.generatedAt ≤ now → 0 < amt →
        truncTowardZero ((amt : ℚ) / o.price) ≤ res.reserveA →
        quoteTrade ⟨.giveBgetA, amt⟩ res o now =
          .ok (⟨res.reserveA - truncTowardZero ((amt : ℚ) / o.price),
                res.reserveB + amt, res.owner⟩,
               truncTowardZero ((amt : ℚ) / o.price))) ∧
    quoteTrade ⟨.giveAgetB, 100000⟩ ⟨1000000, 500000000, "swap"⟩
        ⟨3/5, 0, 1000⟩ 10 =
      .ok (⟨1100000, 499940000, "swap"⟩, 60000) :=
  ⟨quoteTrade_ok_giveAgetB, quoteTrade_ok_giveBgetA,
   by norm_num [quoteTrade, truncTowardZero]⟩

/-- Counterexample to claim C1 as stated: at its own example input — reserve
`{A:1_000_000, B:500}` in smallest units, price `0.6`, `amountIn = 100_000`,
direction giveA→getB — `quoteTrade` does not return `amountOut = 60_000`
with an updated reserve: the computed 60_000 exceeds the B-reserve of 500
and the call fails with `InsufficientReserve`. -/
theorem C1_counterexample :
    quoteTrade ⟨.giveAgetB, 100000⟩ ⟨1000000, 500, "swap"⟩ ⟨3/5, 0, 1000⟩
      10 = .error .InsufficientReserve := by
  norm_num [quoteTrade, truncTowardZero]

/-- Witness for C1: a concrete successful giveA→getB quote (sell 2 A at
price 2 against reserves of 10 and 10). -/
theorem C1_witness :
    quoteTrade ⟨.giveAgetB, 2⟩ ⟨10, 10, "s"⟩ ⟨2, 0, 100⟩ 5 =
      .ok (⟨10 + 2, 10 - truncTowardZero (((2 : ℤ) : ℚ) * (2 : ℚ)), "s"⟩,
           truncTowardZero (((2 : ℤ) : ℚ) * (2 : ℚ))) :=
  C1_quoteTrade_formula.1 2 ⟨10, 10, "s"⟩ ⟨2, 0, 100⟩ 5 (by decide)
    (by decide) (by decide) (by norm_num [truncTowardZero])

/-- Claim C5 (amended): with a fresh oracle window, a trade request with
`amountIn ≤ 0` fails with `InvalidAmount`; the CLI parser stores `0` as the
default of `--amount` in both trade subcommands, so a trade invoked without
`--amount` is rejected by this rule.  (With an expired oracle the expiry
check fires first — see the counterexample.) -/
theorem C5_invalid_amount :
    (∀ (req : TradeRequest) (res : ReserveRecord) (o : OracleRecord)
        (now : ℤ), now < o.expiresAt → o.generatedAt ≤ now →
        req.amountIn ≤ 0 →
        quoteTrade req res o now = .error .InvalidAmount) ∧
    tradeAmountDefault = 0 ∧
    (parseArgs (.trade (some (.tADA, none)))).lookup "amount" =
      some (.int 0) ∧
    (parseArgs (.trade (some (.tUSDT, none)))).lookup "amount" =
      some (.int 0) :=
  ⟨quoteTrade_error_invalidAmount, rfl, rfl, rfl⟩

/-- Counterexample to claim C5 as stated: a trade with `amountIn = 0` (the
CLI default) against an expired oracle fails with `OracleExpired`, not
`InvalidAmount` — the oracle-expiry guard precedes the amount guard. -/
theorem C5_counterexample :
    quoteTrade ⟨.giveAgetB, 0⟩ ⟨10, 10, "s"⟩ ⟨2, 0, 5⟩ 7 =
      .error .OracleExpired :=
  quoteTrade_error_expired ⟨.giveAgetB, 0⟩ ⟨10, 10, "s"⟩ ⟨2, 0, 5⟩ 7
    (by decide)

/-- Witness for C5: a zero-amount trade against a fresh oracle is rejected
with `InvalidAmount`. -/
theorem C5_witness :
    quoteTrade ⟨.giveAgetB, 0⟩ ⟨10, 10, "s"⟩ ⟨2, 0, 100⟩ 5 =
      .error .InvalidAmount :=
  C5_invalid_amount.1 ⟨.giveAgetB, 0⟩ ⟨10, 10, "s"⟩ ⟨2, 0, 100⟩ 5
    (by decide) (by decide) (by decide)

/-- Claim C7 (amended): for every successful quote, value measured in units
of the asset being paid out is conserved within one smallest unit of that
asset — for giveA→getB the quantity `reserveA × price + reserveB`, for
giveB→getA the quantity `reserveA + reserveB ÷ price`.  (The claim's own
weighting `reserveA × 1 + reserveB × price` is not conserved — see the
counterexample.) -/
theorem C7_value_conservation :
    (∀ (amt : ℤ) (res : ReserveRecord) (o : OracleRecord) (now : ℤ)
        (r2 : ReserveRecord) (out : ℤ), 0 < o.price →
        quoteTrade ⟨.giveAgetB, amt⟩ res o now = .ok (r2, out) →
        |((r2.reserveA : ℚ) * o.price + (r2.reserveB : ℚ)) -
          ((res.reserveA : ℚ) * o.price + (res.reserveB : ℚ))| < 1) ∧
    (∀ (amt : ℤ) (res : ReserveRecord) (o : OracleRecord) (now : ℤ)
        (r2 : ReserveRecord) (out : ℤ), 0 < o.price →
        quoteTrade ⟨.giveBgetA, amt⟩ res o now = .ok (r2, out) →
        |((r2.reserveA : ℚ) + (r2.reserveB : ℚ) / o.price) -
          ((res.reserveA : ℚ) + (res.reserveB : ℚ) / o.price)| < 1) := by
  constructor
  · intro amt res o now r2 out hp h
    obtain ⟨_, _, hamt, hcase⟩ := quoteTrade_ok_elim h
    rcases hcase with ⟨_, ho, _, hr⟩ | ⟨hd, _, _, _⟩
    · have hamt2 : 0 < amt := by simpa using hamt
      subst hr
      dsimp only at ho ⊢
      have hnn : (0 : ℚ) ≤ (amt : ℚ) * o.price :=
        mul_nonneg (by exact_mod_cast hamt2.le) hp.le
      rw [ho, truncTowardZero_of_nonneg hnn]
      refine lt_of_le_of_lt (le_of_eq ?_)
        (abs_sub_floor_lt_one ((amt : ℚ) * o.price))
      congr 1
      push_cast
      ring
    · exact absurd hd (by simp)
  · intro amt res o now r2 out hp h
    obtain ⟨_, _, hamt, hcase⟩ := quoteTrade_ok_elim h
    rcases hcase with ⟨hd, _, _, _⟩ | ⟨_, ho, _, hr⟩
    · exact absurd hd (by simp)
    · have hamt2 : 0 < amt := by simpa using hamt
      subst hr
      dsimp only at ho ⊢
      have hnn : (0 : ℚ) ≤ (amt : ℚ) / o.price :=
        div_nonneg (by exact_mod_cast hamt2.le) hp.le
      rw [ho, truncTowardZero_of_nonneg hnn]
      refine lt_of_le_of_lt (le_of_eq ?_)
        (abs_sub_floor_lt_one ((amt : ℚ) / o.price))
      congr 1
      push_cast
      ring

/-- Counterexample to claim C7 as stated: a successful quote (sell 100 A at
price 0.5 against reserves of 1000 and 1000) moves the claim's quantity
`reserveA × 1 + reserveB × price` by 75, far beyond one truncation unit. -/
theorem C7_counterexample :
    quoteTrade ⟨.giveAgetB, 100⟩ ⟨1000, 1000, "swap"⟩ ⟨1/2, 0, 100⟩ 10 =
      .ok (⟨1100, 950, "swap"⟩, 50) ∧
    ((1100 : ℚ) * 1 + (950 : ℚ) * (1/2)) -
      ((1000 : ℚ) * 1 + (1000 : ℚ) * (1/2)) = 75 ∧
    (1 : ℚ) < 75 :=
  ⟨by norm_num [quoteTrade, truncTowardZero], by norm_num, by norm_num⟩

/-- Witness for C7: the conservation bound at the concrete successful quote
selling 2 A at price 1/2 against reserves of 10 and 10. -/
theorem C7_witness :
    |(((12 : ℤ) : ℚ) * ((1 : ℚ)/2) + ((9 : ℤ) : ℚ)) -
      (((10 : ℤ) : ℚ) * ((1 : ℚ)/2) + ((10 : ℤ) : ℚ))| < 1 :=
  C7_value_conservation.1 2 ⟨10, 10, "s"⟩ ⟨(1 : ℚ)/2, 0, 100⟩ 5
    ⟨12, 9, "s"⟩ 1 (by norm_num)
    (by norm_num [quoteTrade, truncTowardZero])

/-- Claim C4: for every command namespace `create_parser` can produce
(`trade tADA`, `trade tUSDT`, bare `trade`, `user`, `swap-contract`,
`oracle-contract`, with any flags), `display` raises an `AttributeError`
before completing its selected branch — the parser stores the subcommand
under `subparser` and `subparser_trade_subparser`, but `display` reads
`subparser_trade_name` (on trade commands) or `subparser_main_name` (on all
others), neither of which is ever set — and the module-level name
`swap_script` referenced by the trade branches is undefined.  Hence no CLI
command ever reaches a swap, liquidity-add, mint or display action. -/
theorem C4_display_always_fails :
    (∀ c : Command, ∃ n,
        display (parseArgs c) = .error (.attributeError n) ∧
        (n = "subparser_trade_name" ∨ n = "subparser_main_name")) ∧
    swap_script = none := by
  constructor
  · intro c
    cases c with
    | trade o =>
        cases o with
        | none => exact ⟨"subparser_trade_name", rfl, .inl rfl⟩
        | some p =>
            obtain ⟨a, amt⟩ := p
            cases a with
            | tADA => exact ⟨"subparser_trade_name", rfl, .inl rfl⟩
            | tUSDT => exact ⟨"subparser_trade_name", rfl, .inl rfl⟩
    | user l a => exact ⟨"subparser_main_name", rfl, .inr rfl⟩
    | swapContract l a al s => exact ⟨"subparser_main_name", rfl, .inr rfl⟩
    | oracleContract f a => exact ⟨"subparser_main_name", rfl, .inr rfl⟩
  · rfl

/-- Claim C9: when `config.yaml` does not exist, the program prints
"Configuration file not found." and exits with status 1, for every command
and every service selection — `load_contracts_addresses()` runs at module
import, before any command is parsed or dispatched. -/
theorem C9_missing_config_exits :
    ∀ (cmd : Command) (ctxArgs : CtxArgs),
      pythonMain none cmd ctxArgs =
        .error (.exit 1 "Configuration file not found.") := by
  intro cmd ctxArgs
  rfl

/-- Claim C10: every chain context `context` builds carries
`Network.TESTNET` regardless of the arguments (the mainnet branch is
absent), the result depends on nothing in `args` but `service`, and for
every service other than "blockfrost" and "ogmios" it returns a
`ChainQuery` whose blockfrost, ogmios and kupo contexts are all `None`. -/
theorem C10_context_testnet_only :
    (∀ (args : CtxArgs) (file : Option ConfigYaml) (q : ChainQuery),
        context args file = .ok q →
        (∀ b, q.blockfrost_context = some b → b.network = .TESTNET) ∧
        (∀ og, q.ogmios_context = some og → og.network = .TESTNET)) ∧
    (∀ (a1 a2 : CtxArgs) (file : Option ConfigYaml),
        a1.service = a2.service → context a1 file = context a2 file) ∧
    (∀ (args : CtxArgs) (cfg : ConfigYaml),
        args.service ≠ "blockfrost" → args.service ≠ "ogmios" →
        context args (some cfg) = .ok ⟨none, none, none⟩) := by
  refine ⟨?_, ?_, ?_⟩
  · intro args file q h
    rw [context] at h
    split at h
    · exact absurd h (by simp)
    · split_ifs at h with hb ho
      · split at h
        · exact absurd h (by simp)
        · simp only [Except.ok.injEq] at h
          subst h
          constructor
          · intro b hb2
            simp only [Option.some.injEq] at hb2
            subst hb2
            rfl
          · intro og ho2
            simp at ho2
      · split at h
        · exact absurd h (by simp)
        · split at h
          · split at h
            · split at h
              · exact absurd h (by simp)
              · simp only [Except.ok.injEq] at h
                subst h
                constructor
                · intro b hb2
                  simp at hb2
                · intro og ho2
                  simp only [Option.some.injEq] at ho2
                  subst ho2
                  rfl
            · exact absurd h (by simp)
          · exact absurd h (by simp)
      · simp only [Except.ok.injEq] at h
        subst h
        constructor
        · intro b hb2
          simp at hb2
        · intro og ho2
          simp at ho2
  · intro a1 a2 file h
    obtain ⟨s1, e1⟩ := a1
    obtain ⟨s2, e2⟩ := a2
    simp only at h
    subst h
    rfl
  · intro args cfg h1 h2
    rw [context]
    dsimp only [load_config]
    rw [if_neg h1, if_neg h2]

/-- Witness for C10 at a concrete input: an unknown service name yields the
all-`None` chain query. -/
theorem C10_witness :
    context ⟨"kupo", "testnet"⟩ (some ⟨[], []⟩) = .ok ⟨none, none, none⟩ :=
  C10_context_testnet_only.2.2 ⟨"kupo", "testnet"⟩ ⟨[], []⟩ (by decide)
    (by decide)

/-- Claim C2: every call to `quoteTrade` with `now ≥ oracle.expiresAt` fails
with `OracleExpired` (no `TransitionRequest` is produced), and every call on
a well-formed record (`generatedAt ≤ expiresAt`) with `now <
oracle.generatedAt` fails with `OracleNotYetActive`; both checks live inside
`quoteTrade`. -/
theorem C2_quoteTrade_time_window :
    (∀ (req : TradeRequest) (res : ReserveRecord) (o : OracleRecord)
        (now : ℤ), o.expiresAt ≤ now →
        quoteTrade req res o now = .error .OracleExpired) ∧
    (∀ (req : TradeRequest) (res : ReserveRecord) (o : OracleRecord)
        (now : ℤ), o.generatedAt ≤ o.expiresAt → now < o.generatedAt →
        quoteTrade req res o now = .error .OracleNotYetActive) :=
  ⟨fun req res o now h => quoteTrade_error_expired req res o now h,
   fun req res o now hwf h =>
     quoteTrade_error_notYetActive req res o now (by omega) h⟩

/-- Witness for C2 at concrete inputs: an expired oracle (expiry 7 at time
7) and a not-yet-active oracle (generated at 3, queried at time 1). -/
theorem C2_witness :
    quoteTrade ⟨.giveAgetB, 5⟩ ⟨10, 10, "s"⟩ ⟨2, 0, 7⟩ 7 =
      .error .OracleExpired ∧
    quoteTrade ⟨.giveAgetB, 5⟩ ⟨10, 10, "s"⟩ ⟨2, 3, 9⟩ 1 =
      .error .OracleNotYetActive :=
  ⟨C2_quoteTrade_time_window.1 ⟨.giveAgetB, 5⟩ ⟨10, 10, "s"⟩ ⟨2, 0, 7⟩ 7
     (by decide),
   C2_quoteTrade_time_window.2 ⟨.giveAgetB, 5⟩ ⟨10, 10, "s"⟩ ⟨2, 3, 9⟩ 1
     (by decide) (by decide)⟩

/-- Claim C3: a quote whose computed `amountOut` exceeds the reserve of the
asset being paid out fails with `InsufficientReserve` (in either direction),
and every reserve record a successful quote produces keeps both balances
non-negative when the input balances were. -/
theorem C3_insufficient_reserve_and_nonneg :
    (∀ (amt : ℤ) (res : ReserveRecord) (o : OracleRecord) (now : ℤ),
        now < o.expiresAt → o.generatedAt ≤ now → 0 < amt →
        res.reserveB < truncTowardZero ((amt : ℚ) * o.price) →
        quoteTrade ⟨.giveAgetB, amt⟩ res o now =
          .error .InsufficientReserve) ∧
    (∀ (amt : ℤ) (res : ReserveRecord) (o : OracleRecord) (now : ℤ),
        now < o.expiresAt → o.generatedAt ≤ now → 0 < amt →
        res.reserveA < truncTowardZero ((amt : ℚ) / o.price) →
        quoteTrade ⟨.giveBgetA, amt⟩ res o now =
          .error .InsufficientReserve) ∧
    (∀ (req : TradeRequest) (res : ReserveRecord) (o : OracleRecord)
        (now : ℤ) (r2 : ReserveRecord) (out : ℤ),
        0 ≤ res.reserveA → 0 ≤ res.reserveB →
        quoteTrade req res o now = .ok (r2, out) →
        0 ≤ r2.reserveA ∧ 0 ≤ r2.reserveB) := by
  refine ⟨?_, ?_, ?_⟩
  · intro amt res o now hexp hgen hamt hins
    rw [quoteTrade]
    dsimp only
    rw [if_neg (by omega), if_neg (by omega), if_neg (by omega),
        if_pos (by omega)]
  · intro amt res o now hexp hgen hamt hins
    rw [quoteTrade]
    dsimp only
    rw [if_neg (by omega), if_neg (by omega), if_neg (by omega),
        if_pos (by omega)]
  · intro req res o now r2 out hA hB h
    obtain ⟨_, _, hamt, hcase⟩ := quoteTrade_ok_elim h
    rcases hcase with ⟨_, ho, hle, hr⟩ | ⟨_, ho, hle, hr⟩ <;> subst hr <;>
      exact ⟨by dsimp only; omega, by dsimp only; omega⟩

/-- Witness for C3 at a concrete input: selling 7 units of A at price 2
against a reserve holding only 3 units of B. -/
theorem C3_witness :
    quoteTrade ⟨.giveAgetB, 7⟩ ⟨5, 3, "s"⟩ ⟨2, 0, 100⟩ 1 =
      .error .InsufficientReserve :=
  C3_insufficient_reserve_and_nonneg.1 7 ⟨5, 3, "s"⟩ ⟨2, 0, 100⟩ 1
    (by decide) (by decide) (by decide) (by norm_num [truncTowardZero])

/-- Claim C6: `applyLiquidityChange` rejects a negative delta on either
asset with `InvalidAmount`, and otherwise adds both deltas componentwise,
leaving every other field (the owner) unchanged. -/
theorem C6_applyLiquidityChange_spec :
    (∀ (req : LiquidityChangeRequest) (res : ReserveRecord),
        req.deltaA < 0 ∨ req.deltaB < 0 →
        applyLiquidityChange req res = .error .InvalidAmount) ∧
    (∀ (req : LiquidityChangeRequest) (res : ReserveRecord),
        0 ≤ req.deltaA → 0 ≤ req.deltaB →
        applyLiquidityChange req res =
          .ok ⟨res.reserveA + req.deltaA, res.reserveB + req.deltaB,
               res.owner⟩) := by
  constructor
  · intro req res h
    rw [applyLiquidityChange, if_pos h]
  · intro req res hA hB
    rw [applyLiquidityChange, if_neg (by omega)]

/-- Witness for C6 at concrete inputs: a negative delta is rejected, a pair
of non-negative deltas is added componentwise. -/
theorem C6_witness :
    applyLiquidityChange ⟨-1, 5⟩ ⟨10, 10, "s"⟩ = .error .InvalidAmount ∧
    applyLiquidityChange ⟨3, 4⟩ ⟨10, 20, "s"⟩ = .ok ⟨10 + 3, 20 + 4, "s"⟩ :=
  ⟨C6_applyLiquidityChange_spec.1 ⟨-1, 5⟩ ⟨10, 10, "s"⟩ (by decide),
   C6_applyLiquidityChange_spec.2 ⟨3, 4⟩ ⟨10, 20, "s"⟩ (by decide)
     (by decide)⟩

/-- Claim C8: `quoteTrade` is deterministic — two calls with identical
request, reserve snapshot, oracle snapshot and clock return identical
results; in this embedding the engine is a pure function of exactly these
four inputs, so no hidden state can influence the result. -/
theorem C8_quoteTrade_deterministic :
    ∀ (req req2 : TradeRequest) (res res2 : ReserveRecord)
      (o o2 : OracleRecord) (now now2 : ℤ),
      req = req2 → res = res2 → o = o2 → now = now2 →
      quoteTrade req res o now = quoteTrade req2 res2 o2 now2 := by
  intro req req2 res res2 o o2 now now2 h1 h2 h3 h4
  subst h1; subst h2; subst h3; subst h4
  rfl

/-- Witness for C8: two textually separate calls on the same snapshots. -/
theorem C8_witness :
    quoteTrade ⟨.giveAgetB, 1⟩ ⟨1, 1, "s"⟩ ⟨1, 0, 10⟩ 5 =
      quoteTrade ⟨.giveAgetB, 1⟩ ⟨1, 1, "s"⟩ ⟨1, 0, 10⟩ 5 :=
  C8_quoteTrade_deterministic ⟨.giveAgetB, 1⟩ ⟨.giveAgetB, 1⟩ ⟨1, 1, "s"⟩
    ⟨1, 1, "s"⟩ ⟨1, 0, 10⟩ ⟨1, 0, 10⟩ 5 5 rfl rfl rfl rfl

end SwapDemo
